import Mathlib

/-!
Verification of `generate_embeddings.py` (repository `glennib/analyze-this`).

The module is a small client for a text-embedding HTTP API plus a JSON
store for embedding vectors and a cosine-similarity utility.  We embed it
shallowly:

* JSON values are the inductive `JVal`; `JVal.num` carries a rational,
  the exact idealisation of a Python float.  A JSON object is a list of
  key/value bindings; parsed Python dicts have unique keys and lookup
  takes the first binding.
* The process environment (`os.environ`) and the file system are
  functions `String → Option String`.
* The one HTTP POST in `generate_embedding` is modelled by passing the
  provider's response in as a value (`HttpResponse`) and recording in the
  result whether (and with which URL/body) the request was issued, so
  that "fails before any network call" is the statement `request = none`.
* `json.dump` followed by `json.load` on the same path is the identity on
  the JSON value (Python's serializer round-trips floats exactly), so
  `save_embedding` returns the document it writes and `load_embedding`
  consumes a parsed document.
* Python exceptions become `Except String`; the strings follow the
  messages raised by the source.
-/

/-- A JSON value, as produced by Python's `json` module.  `num` holds a
rational: the exact model of a Python int/float. -/
inductive JVal where
  | null : JVal
  | bool : Bool → JVal
  | num : ℚ → JVal
  | str : String → JVal
  | arr : List JVal → JVal
  | obj : List (String × JVal) → JVal

/-- `os.environ`: mapping from variable name to value, absent = `none`. -/
def Env : Type := String → Option String

/-- The file system seen by the script: path → text content, absent = `none`. -/
def FileSystem : Type := String → Option String

/-- `GEMINI_API_KEY = os.environ.get('GEMINI_API_KEY')`
(line 26 of `generate_embeddings.py`). -/
def GEMINI_API_KEY (env : Env) : Option String :=
  env "GEMINI_API_KEY"

/-- `EMBEDDING_MODEL = os.environ.get('EMBEDDING_MODEL', 'models/text-embedding-004')`
(line 27). -/
def EMBEDDING_MODEL (env : Env) : String :=
  (env "EMBEDDING_MODEL").getD "models/text-embedding-004"

/-- Python truthiness test `not x` for an optional string:
`None` and the empty string are falsy. -/
def pyStrFalsy : Option String → Bool
  | none => true
  | some s => s = ""

/-- `metadata or {}` (line 106): `None` and the empty dict are falsy, in
either case the result is the empty dict. -/
def pyOrEmptyDict : Option (List (String × JVal)) → List (String × JVal)
  | none => []
  | some m => if m.isEmpty then [] else m

/-- `save_embedding(embedding, output_path, metadata)` (lines 89-113):
builds the JSON document `{'embedding': ..., 'dimension': len(embedding),
'model': EMBEDDING_MODEL, 'metadata': metadata or {}}` and writes it to
`output_path`.  The document written is returned; directory creation and
the file write itself are outside the model. -/
def save_embedding (env : Env) (embedding : List JVal)
    (metadata : Option (List (String × JVal))) : JVal :=
  JVal.obj [("embedding", JVal.arr embedding),
            ("dimension", JVal.num (embedding.length : ℚ)),
            ("model", JVal.str (EMBEDDING_MODEL env)),
            ("metadata", JVal.obj (pyOrEmptyDict metadata))]

/-- `load_embedding(input_path)` (lines 116-132), applied to the document
`json.load` parsed from the file: `data.get('embedding', [])` and
`data.get('metadata', {})`.  `.get` exists only on dicts — on any other
parsed JSON value Python raises `AttributeError`. -/
def load_embedding (doc : JVal) : Except String (JVal × JVal) :=
  match doc with
  | JVal.obj fields =>
      Except.ok ((fields.lookup "embedding").getD (JVal.arr []),
                 (fields.lookup "metadata").getD (JVal.obj []))
  | _ => Except.error "AttributeError: object has no attribute get"

/-- Field lookup in a JSON object document (`doc[k]` on a parsed dict),
`none` when the key is absent or the document is not an object. -/
def docField (doc : JVal) (k : String) : Option JVal :=
  match doc with
  | JVal.obj fields => fields.lookup k
  | _ => none

/-- Python `k in data` on a parsed JSON value when `data` is a dict;
`False` models the non-dict cases that matter here. -/
def jvalHasKey (doc : JVal) (k : String) : Bool :=
  (docField doc k).isSome

/-- Python `data[k]` on a parsed dict; only consulted after
`jvalHasKey doc k` holds, `null` otherwise. -/
def jvalIndex (doc : JVal) (k : String) : JVal :=
  (docField doc k).getD JVal.null

/-- The outcome of the single blocking POST in `generate_embedding`:
a 2xx response with a parsed JSON body, a non-2xx status
(`urllib.error.HTTPError`, carrying status code and raw body text), or a
transport-level failure (DNS, timeout, reset). -/
inductive HttpResponse where
  | success : JVal → HttpResponse
  | httpError : Nat → String → HttpResponse
  | transportFailure : String → HttpResponse

/-- The one outbound POST request, as built on lines 54-64: the URL
(model and API key interpolated) and the request body's text and task
type. -/
structure HttpRequest where
  url : String
  text : String
  taskType : String

/-- `https://generativelanguage.googleapis.com/v1beta/{EMBEDDING_MODEL}:embedContent?key={GEMINI_API_KEY}`
(line 54; the key is non-`None` whenever this string is built). -/
def apiUrl (env : Env) : String :=
  "https://generativelanguage.googleapis.com/v1beta/" ++ EMBEDDING_MODEL env
    ++ ":embedContent?key=" ++ (GEMINI_API_KEY env).getD ""

/-- Result of `generate_embedding`: the returned value or the raised
exception, together with the POST request that was issued —
`request = none` means the function returned/raised before any network
call. -/
structure GenResult where
  result : Except String JVal
  request : Option HttpRequest

/-- `generate_embedding(text, task_type)` (lines 30-86).  Checks the
API key (`if not GEMINI_API_KEY: raise ValueError(...)`) before doing
anything else, then issues the POST and extracts
`data['embedding']['values']` when present.  A 2xx body without that
path raises inside the `try`, so the generic `except Exception` wraps it
as `Failed to generate embedding: ...`; an `HTTPError` is re-raised from
its own handler as `Embedding API error: ...` (not re-wrapped); any
other failure is wrapped as `Failed to generate embedding: ...`. -/
def generate_embedding (env : Env) (text task_type : String)
    (http : HttpResponse) : GenResult :=
  if pyStrFalsy (GEMINI_API_KEY env) then
    { result := Except.error "GEMINI_API_KEY environment variable not set",
      request := none }
  else
    let req : HttpRequest := ⟨apiUrl env, text, task_type⟩
    match http with
    | HttpResponse.success data =>
        if jvalHasKey data "embedding" && jvalHasKey (jvalIndex data "embedding") "values" then
          { result := Except.ok (jvalIndex (jvalIndex data "embedding") "values"),
            request := some req }
        else
          { result := Except.error
              "Failed to generate embedding: Unexpected API response format",
            request := some req }
    | HttpResponse.httpError code body =>
        { result := Except.error
            ("Embedding API error: HTTP " ++ toString code ++ " - " ++ body),
          request := some req }
    | HttpResponse.transportFailure msg =>
        { result := Except.error ("Failed to generate embedding: " ++ msg),
          request := some req }

/-- Result of `embed_file`: outcome, whether `generate_embedding` was
invoked, the POST request issued (if any), and the output path and JSON
document handed to `save_embedding` (if reached). -/
structure EmbedFileResult where
  result : Except String Unit
  generateCalled : Bool
  request : Option HttpRequest
  saved : Option (String × JVal)

/-- `embed_file(input_path, output_path, task_type)` (lines 159-193):
raises `FileNotFoundError` when the input path does not exist, else
reads the text, calls `generate_embedding`, builds the metadata
(source path, character length, 200-character preview with `...`
appended when truncated) and saves.  `len()` of a non-list embedding
value would raise a `TypeError` inside `save_embedding`. -/
def embed_file (env : Env) (fs : FileSystem)
    (input_path output_path task_type : String) (http : HttpResponse) :
    EmbedFileResult :=
  match fs input_path with
  | none =>
      { result := Except.error ("Input file not found: " ++ input_path),
        generateCalled := false, request := none, saved := none }
  | some text =>
      let g := generate_embedding env text task_type http
      match g.result with
      | Except.error e =>
          { result := Except.error e, generateCalled := true,
            request := g.request, saved := none }
      | Except.ok embeddingVal =>
          let metadata : List (String × JVal) :=
            [("source_file", JVal.str input_path),
             ("text_length", JVal.num (text.length : ℚ)),
             ("text_preview",
              JVal.str (text.take 200 ++ (if text.length > 200 then "..." else "")))]
          match embeddingVal with
          | JVal.arr l =>
              { result := Except.ok (), generateCalled := true,
                request := g.request,
                saved := some (output_path, save_embedding env l metadata) }
          | _ =>
              { result := Except.error "TypeError: object has no len()",
                generateCalled := true, request := g.request, saved := none }

/-- `sum(a * b for a, b in zip(embedding1, embedding2))` (line 149):
`zip` stops at the shorter list. -/
def dotProduct : List ℚ → List ℚ → ℚ
  | a :: as, b :: bs => a * b + dotProduct as bs
  | _, _ => 0

/-- `sum(a * a for a in embedding)` (lines 150-151): the square of the
Euclidean magnitude, kept unrooted so it stays rational.  The code
compares `magnitude == 0`, and `sum ** 0.5 == 0` exactly when the sum
itself is `0`. -/
def sumSquares : List ℚ → ℚ
  | [] => 0
  | a :: as => a * a + sumSquares as

/-- The value `cosine_similarity` returns, kept symbolic so the
definition stays computable: either the `0.0` fallback or the triple
`(dot_product, magnitude1 ** 2, magnitude2 ** 2)` standing for
`dot_product / (magnitude1 * magnitude2)`. -/
inductive SimValue where
  | zero : SimValue
  | ratio : ℚ → ℚ → ℚ → SimValue
  deriving DecidableEq

/-- The real number a `SimValue` stands for:
`ratio d s1 s2` is `d / (s1 ** 0.5 * s2 ** 0.5)`, exactly the return
expression `dot_product / (magnitude1 * magnitude2)` on line 156. -/
def SimValue.denotes : SimValue → ℝ → Prop
  | SimValue.zero, r => r = 0
  | SimValue.ratio d s1 s2, r =>
      r = (d : ℝ) / (Real.sqrt (s1 : ℝ) * Real.sqrt (s2 : ℝ))

/-- `cosine_similarity(embedding1, embedding2)` (lines 135-156): raises
`ValueError` on a dimension mismatch, returns `0.0` when either
magnitude is zero, else the dot product over the product of magnitudes. -/
def cosine_similarity (embedding1 embedding2 : List ℚ) :
    Except String SimValue :=
  if embedding1.length ≠ embedding2.length then
    Except.error "Embeddings must have same dimension"
  else
    let dot_product := dotProduct embedding1 embedding2
    let magSq1 := sumSquares embedding1
    let magSq2 := sumSquares embedding2
    if magSq1 = 0 ∨ magSq2 = 0 then
      Except.ok SimValue.zero
    else
      Except.ok (SimValue.ratio dot_product magSq1 magSq2)

/-! ### Arithmetic facts about the similarity kernel -/

theorem dotProduct_comm (a b : List ℚ) : dotProduct a b = dotProduct b a := by
  induction a generalizing b with
  | nil => cases b <;> simp [dotProduct]
  | cons x xs ih =>
      cases b with
      | nil => simp [dotProduct]
      | cons y ys => simp [dotProduct, ih, mul_comm]

theorem dotProduct_self (a : List ℚ) : dotProduct a a = sumSquares a := by
  induction a with
  | nil => rfl
  | cons x xs ih => simp [dotProduct, sumSquares, ih]

theorem sumSquares_nonneg (a : List ℚ) : 0 ≤ sumSquares a := by
  induction a with
  | nil => simp [sumSquares]
  | cons x xs ih => simp only [sumSquares]; nlinarith [mul_self_nonneg x]

/-- Cauchy–Schwarz for the list dot product. -/
theorem dotProduct_sq_le (a b : List ℚ) :
    dotProduct a b * dotProduct a b ≤ sumSquares a * sumSquares b := by
  induction a generalizing b with
  | nil => cases b <;> simp [dotProduct, sumSquares]
  | cons x xs ih =>
      cases b with
      | nil =>
          simp only [dotProduct, sumSquares]
          nlinarith [sumSquares_nonneg (x :: xs)]
      | cons y ys =>
          have h := ih ys
          have h1 := sumSquares_nonneg xs
          have h2 := sumSquares_nonneg ys
          simp only [dotProduct, sumSquares]
          rcases eq_or_lt_of_le h2 with hs2 | hs2
          · have hd : dotProduct xs ys = 0 := by
              nlinarith [mul_self_nonneg (dotProduct xs ys)]
            rw [hd]
            nlinarith [mul_nonneg h1 (mul_self_nonneg y)]
          · nlinarith [sq_nonneg (x * sumSquares ys - y * dotProduct xs ys),
              mul_nonneg (mul_self_nonneg y)
                (sub_nonneg.mpr h),
              mul_nonneg h2 (sub_nonneg.mpr h), hs2]

/-- On equal-length inputs `cosine_similarity` reduces to the zero guard
plus the symbolic ratio. -/
theorem cosine_similarity_eq_of_len (A B : List ℚ) (hlen : A.length = B.length) :
    cosine_similarity A B =
      if sumSquares A = 0 ∨ sumSquares B = 0 then Except.ok SimValue.zero
      else Except.ok (SimValue.ratio (dotProduct A B) (sumSquares A) (sumSquares B)) := by
  unfold cosine_similarity
  rw [if_neg (by simp [hlen])]

/-- Positivity of the cast magnitude squared when it is nonzero. -/
theorem sumSquares_cast_pos (A : List ℚ) (h : sumSquares A ≠ 0) :
    (0 : ℝ) < ((sumSquares A : ℚ) : ℝ) := by
  have := lt_of_le_of_ne (sumSquares_nonneg A) (Ne.symm h)
  exact_mod_cast this

/-! ### Claims -/

/-- C3: `similarity(A, B)` fails with the dimension-mismatch error if and
only if `A` and `B` have unequal lengths; for equal-length inputs it never
raises that error. -/
theorem cosine_similarity_dim_error_iff (A B : List ℚ) :
    cosine_similarity A B = Except.error "Embeddings must have same dimension"
      ↔ A.length ≠ B.length := by
  unfold cosine_similarity
  by_cases h : A.length = B.length
  · rw [if_neg (by simp [h])]
    constructor
    · intro hc
      simp only [] at hc
      split at hc <;> exact Except.noConfusion hc
    · intro hne
      exact absurd h hne
  · rw [if_pos h]
    simp [h]

/-- C4: for equal-length vectors, if either vector's Euclidean norm is
exactly zero, `similarity` returns `0.0` rather than failing. -/
theorem cosine_similarity_zero_norm (A B : List ℚ)
    (hlen : A.length = B.length)
    (hzero : sumSquares A = 0 ∨ sumSquares B = 0) :
    cosine_similarity A B = Except.ok SimValue.zero ∧
      SimValue.denotes SimValue.zero 0 := by
  refine ⟨?_, rfl⟩
  simp only [cosine_similarity, hlen]
  simp [hzero]

theorem cosine_similarity_zero_norm_witness :
    ([(0 : ℚ)].length = [(3 : ℚ)].length ∧ sumSquares [(0 : ℚ)] = 0) ∧
      (cosine_similarity [(0 : ℚ)] [(3 : ℚ)] = Except.ok SimValue.zero ∧
        SimValue.denotes SimValue.zero 0) :=
  ⟨⟨rfl, by norm_num [sumSquares]⟩,
    cosine_similarity_zero_norm [0] [3] rfl (Or.inl (by norm_num [sumSquares]))⟩

/-- C2: for every pair of vectors of equal length, `similarity(A, B)`
equals `similarity(B, A)`. -/
theorem cosine_similarity_comm (A B : List ℚ) (v w : SimValue) (r s : ℝ)
    (hlen : A.length = B.length)
    (hAB : cosine_similarity A B = Except.ok v)
    (hBA : cosine_similarity B A = Except.ok w)
    (hv : v.denotes r) (hw : w.denotes s) : r = s := by
  rw [cosine_similarity_eq_of_len A B hlen] at hAB
  rw [cosine_similarity_eq_of_len B A hlen.symm] at hBA
  by_cases hz : sumSquares A = 0 ∨ sumSquares B = 0
  · rw [if_pos hz] at hAB
    rw [if_pos (Or.symm hz)] at hBA
    simp only [Except.ok.injEq] at hAB hBA
    rw [← hAB] at hv
    rw [← hBA] at hw
    simp only [SimValue.denotes] at hv hw
    rw [hv, hw]
  · rw [if_neg hz] at hAB
    rw [if_neg (fun hor => hz (Or.symm hor))] at hBA
    simp only [Except.ok.injEq] at hAB hBA
    rw [← hAB] at hv
    rw [← hBA] at hw
    simp only [SimValue.denotes] at hv hw
    rw [dotProduct_comm B A, mul_comm (Real.sqrt _) (Real.sqrt _)] at hw
    rw [hv, hw]

theorem cosine_similarity_comm_witness :
    ([(1 : ℚ)].length = [(2 : ℚ)].length) ∧
      (((2 : ℚ) : ℝ) / (Real.sqrt ((1 : ℚ) : ℝ) * Real.sqrt ((4 : ℚ) : ℝ)) =
        ((2 : ℚ) : ℝ) / (Real.sqrt ((4 : ℚ) : ℝ) * Real.sqrt ((1 : ℚ) : ℝ))) :=
  ⟨rfl,
    cosine_similarity_comm [1] [2] (SimValue.ratio 2 1 4) (SimValue.ratio 2 4 1)
      _ _ rfl
      (by norm_num [cosine_similarity, dotProduct, sumSquares])
      (by norm_num [cosine_similarity, dotProduct, sumSquares])
      rfl rfl⟩

/-- C5: for every pair of equal-length vectors, the value returned by
`similarity(A, B)` lies in the closed interval `[-1, 1]`. -/
theorem cosine_similarity_in_range (A B : List ℚ) (v : SimValue) (r : ℝ)
    (hlen : A.length = B.length)
    (hAB : cosine_similarity A B = Except.ok v)
    (hv : v.denotes r) : -1 ≤ r ∧ r ≤ 1 := by
  rw [cosine_similarity_eq_of_len A B hlen] at hAB
  by_cases hz : sumSquares A = 0 ∨ sumSquares B = 0
  · rw [if_pos hz] at hAB
    simp only [Except.ok.injEq] at hAB
    rw [← hAB] at hv
    simp only [SimValue.denotes] at hv
    rw [hv]
    norm_num
  · rw [if_neg hz] at hAB
    simp only [Except.ok.injEq] at hAB
    rw [← hAB] at hv
    simp only [SimValue.denotes] at hv
    push_neg at hz
    have hs1 : (0 : ℝ) < ((sumSquares A : ℚ) : ℝ) := sumSquares_cast_pos A hz.1
    have hs2 : (0 : ℝ) < ((sumSquares B : ℚ) : ℝ) := sumSquares_cast_pos B hz.2
    have hpos : 0 < Real.sqrt ((sumSquares A : ℚ) : ℝ) * Real.sqrt ((sumSquares B : ℚ) : ℝ) :=
      mul_pos (Real.sqrt_pos.mpr hs1) (Real.sqrt_pos.mpr hs2)
    have hcs : ((dotProduct A B : ℚ) : ℝ) * ((dotProduct A B : ℚ) : ℝ) ≤
        ((sumSquares A : ℚ) : ℝ) * ((sumSquares B : ℚ) : ℝ) := by
      exact_mod_cast dotProduct_sq_le A B
    have habs : |((dotProduct A B : ℚ) : ℝ)| ≤
        Real.sqrt (((sumSquares A : ℚ) : ℝ) * ((sumSquares B : ℚ) : ℝ)) := by
      rw [← Real.sqrt_mul_self_eq_abs]
      exact Real.sqrt_le_sqrt hcs
    have hr1 : |r| ≤ 1 := by
      rw [hv, abs_div, abs_of_pos hpos, div_le_one hpos]
      calc |((dotProduct A B : ℚ) : ℝ)|
          ≤ Real.sqrt (((sumSquares A : ℚ) : ℝ) * ((sumSquares B : ℚ) : ℝ)) := habs
        _ = Real.sqrt ((sumSquares A : ℚ) : ℝ) * Real.sqrt ((sumSquares B : ℚ) : ℝ) :=
            Real.sqrt_mul hs1.le _
    exact abs_le.mp hr1

theorem cosine_similarity_in_range_witness :
    ([(1 : ℚ)].length = [(2 : ℚ)].length) ∧
      (-1 ≤ ((2 : ℚ) : ℝ) / (Real.sqrt ((1 : ℚ) : ℝ) * Real.sqrt ((4 : ℚ) : ℝ)) ∧
        ((2 : ℚ) : ℝ) / (Real.sqrt ((1 : ℚ) : ℝ) * Real.sqrt ((4 : ℚ) : ℝ)) ≤ 1) :=
  ⟨rfl,
    cosine_similarity_in_range [1] [2] (SimValue.ratio 2 1 4) _ rfl
      (by norm_num [cosine_similarity, dotProduct, sumSquares]) rfl⟩

/-- C6: for every vector with nonzero norm, `similarity(A, A)` equals `1`
in exact arithmetic. -/
theorem cosine_similarity_self (A : List ℚ) (v : SimValue) (r : ℝ)
    (hnz : sumSquares A ≠ 0)
    (hAA : cosine_similarity A A = Except.ok v)
    (hv : v.denotes r) : r = 1 := by
  rw [cosine_similarity_eq_of_len A A rfl] at hAA
  rw [if_neg (by simp [hnz])] at hAA
  simp only [Except.ok.injEq] at hAA
  rw [← hAA] at hv
  simp only [SimValue.denotes] at hv
  rw [dotProduct_self] at hv
  have hs : (0 : ℝ) < ((sumSquares A : ℚ) : ℝ) := sumSquares_cast_pos A hnz
  rw [hv, Real.mul_self_sqrt hs.le, div_self hs.ne']

theorem cosine_similarity_self_witness :
    (sumSquares [(2 : ℚ)] ≠ 0) ∧
      (((4 : ℚ) : ℝ) / (Real.sqrt ((4 : ℚ) : ℝ) * Real.sqrt ((4 : ℚ) : ℝ)) = 1) :=
  ⟨by norm_num [sumSquares],
    cosine_similarity_self [2] (SimValue.ratio 4 4 4) _
      (by norm_num [sumSquares])
      (by norm_num [cosine_similarity, dotProduct, sumSquares]) rfl⟩

/-- C1: saving a non-empty vector `V` with a JSON-serializable metadata
mapping `M` and loading the written document back returns a vector equal
to `V` and metadata equal to `M`. -/
theorem save_load_roundtrip (env : Env) (V : List ℚ) (M : List (String × JVal))
    (hV : V ≠ []) :
    load_embedding (save_embedding env (V.map JVal.num) (some M)) =
      Except.ok (JVal.arr (V.map JVal.num), JVal.obj M) := by
  cases M <;> rfl

theorem save_load_roundtrip_witness :
    ([(1 : ℚ)] ≠ []) ∧
      load_embedding (save_embedding (fun _ => none) ([(1 : ℚ)].map JVal.num)
          (some [("source_file", JVal.str "in.txt")])) =
        Except.ok (JVal.arr ([(1 : ℚ)].map JVal.num),
          JVal.obj [("source_file", JVal.str "in.txt")]) :=
  ⟨by simp,
    save_load_roundtrip (fun _ => none) [1] [("source_file", JVal.str "in.txt")]
      (by simp)⟩

/-- C9 as stated is false: `load` on the valid JSON document `[]` (a
top-level array, not an object) raises `AttributeError` from
`data.get(...)` instead of returning the defaults. -/
theorem load_embedding_nonobject_counterexample :
    load_embedding (JVal.arr []) =
      Except.error "AttributeError: object has no attribute get" := rfl

/-- C9 (amended to JSON object documents): for every valid JSON object
document, `load` returns the document's embedding and metadata values,
defaulting to an empty sequence / empty mapping when the respective key
is missing, rather than failing. -/
theorem load_embedding_object_defaults (fields : List (String × JVal)) :
    ∃ e m, load_embedding (JVal.obj fields) = Except.ok (e, m) ∧
      (fields.lookup "embedding" = none → e = JVal.arr []) ∧
      (∀ v, fields.lookup "embedding" = some v → e = v) ∧
      (fields.lookup "metadata" = none → m = JVal.obj []) ∧
      (∀ v, fields.lookup "metadata" = some v → m = v) := by
  refine ⟨_, _, rfl, ?_, ?_, ?_, ?_⟩
  · intro h; simp [h]
  · intro v h; simp [h]
  · intro h; simp [h]
  · intro v h; simp [h]

theorem load_embedding_object_defaults_witness :
    ∃ e m, load_embedding (JVal.obj []) = Except.ok (e, m) ∧
      (([] : List (String × JVal)).lookup "embedding" = none → e = JVal.arr []) ∧
      (∀ v, ([] : List (String × JVal)).lookup "embedding" = some v → e = v) ∧
      (([] : List (String × JVal)).lookup "metadata" = none → m = JVal.obj []) ∧
      (∀ v, ([] : List (String × JVal)).lookup "metadata" = some v → m = v) :=
  load_embedding_object_defaults []

/-- C10: every document written by `save` has its `dimension` field equal
to the length of its `embedding` field. -/
theorem save_embedding_dimension_invariant (env : Env) (V : List JVal)
    (md : Option (List (String × JVal))) :
    ∃ l, docField (save_embedding env V md) "embedding" = some (JVal.arr l) ∧
      docField (save_embedding env V md) "dimension" =
        some (JVal.num (l.length : ℚ)) :=
  ⟨V, rfl, rfl⟩

/-- C7 as stated is false: with `API_KEY` absent from the environment but
`GEMINI_API_KEY` set, `generate` does not fail with a configuration
error — it issues the POST (with the `GEMINI_API_KEY` value in the URL)
and succeeds. -/
theorem generate_embedding_api_key_counterexample :
    ((fun k => if k = "GEMINI_API_KEY" then some "secret" else none : Env)
        "API_KEY" = none) ∧
      generate_embedding
          (fun k => if k = "GEMINI_API_KEY" then some "secret" else none)
          "hello" "RETRIEVAL_DOCUMENT"
          (HttpResponse.success (JVal.obj
            [("embedding", JVal.obj [("values", JVal.arr [JVal.num 1])])])) =
        { result := Except.ok (JVal.arr [JVal.num 1]),
          request := some
            ⟨"https://generativelanguage.googleapis.com/v1beta/models/text-embedding-004:embedContent?key=secret",
             "hello", "RETRIEVAL_DOCUMENT"⟩ } :=
  ⟨rfl, rfl⟩

/-- C7 (amended: the credential variable is `GEMINI_API_KEY`): if
`GEMINI_API_KEY` is absent from the environment, every call to `generate`
fails with the configuration error and issues no network request. -/
theorem generate_embedding_missing_key (env : Env) (text task_type : String)
    (http : HttpResponse) (h : env "GEMINI_API_KEY" = none) :
    generate_embedding env text task_type http =
      { result := Except.error "GEMINI_API_KEY environment variable not set",
        request := none } := by
  simp [generate_embedding, GEMINI_API_KEY, h, pyStrFalsy]

theorem generate_embedding_missing_key_witness :
    ((fun _ => none : Env) "GEMINI_API_KEY" = none) ∧
      generate_embedding (fun _ => none) "x" "RETRIEVAL_DOCUMENT"
          (HttpResponse.transportFailure "down") =
        { result := Except.error "GEMINI_API_KEY environment variable not set",
          request := none } :=
  ⟨rfl, generate_embedding_missing_key _ _ _ _ rfl⟩

/-- C8: `embedFile` on a nonexistent input path fails with the
file-not-found error before `generate` is called, hence before any
network request. -/
theorem embed_file_missing_input (env : Env) (fs : FileSystem)
    (input_path output_path task_type : String) (http : HttpResponse)
    (h : fs input_path = none) :
    embed_file env fs input_path output_path task_type http =
      { result := Except.error ("Input file not found: " ++ input_path),
        generateCalled := false, request := none, saved := none } := by
  unfold embed_file
  rw [h]

theorem embed_file_missing_input_witness :
    ((fun _ => none : FileSystem) "in.txt" = none) ∧
      embed_file (fun _ => some "key") (fun _ => none) "in.txt" "out.json"
          "RETRIEVAL_DOCUMENT" (HttpResponse.transportFailure "down") =
        { result := Except.error ("Input file not found: " ++ "in.txt"),
          generateCalled := false, request := none, saved := none } :=
  ⟨rfl, embed_file_missing_input _ _ _ _ _ _ rfl⟩
